import Mathlib

/-!
# Verification of the Cornac BPR notebook and the AzureML CI workflows

This development embeds, in Lean, the data model and operations of the
`recommenders` repository sample consisting of
`examples/02_model_collaborative_filtering/cornac_bpr_deep_dive.ipynb`
(together with the CI workflow documents packaged with it:
`azureml-spark-nightly` and the reusable `azureml-tests` workflow) and
`.github/workflows/azureml-gpu-nightly.yml`.

The notebook is a linear pipeline over tabular interaction data; the CI
files are declarative workflow configuration.  Library routines that the
repository only calls (the splitter, the Cornac BPR trainer, the metric
helpers) are not part of the sampled sources; where a claim depends on
them they are modelled from the specification, and each such definition
carries a doc comment starting with `Modelled from the spec:`.
-/

/-! ## Data model

A flat table of interaction records (user identifier, item identifier,
rating value), and a ranked list of (user, item, predicted score) tuples
produced after model inference. -/

/-- One row of the interaction table: `(userID, itemID, rating)`. -/
structure Interaction where
  userID : Nat
  itemID : Nat
  rating : ℚ
  deriving DecidableEq, Repr

/-- One row of the prediction table: `(userID, itemID, prediction)`. -/
structure Prediction where
  userID : Nat
  itemID : Nat
  prediction : ℚ
  deriving DecidableEq, Repr

/-! ## Seeded pseudo-random shuffle

`Modelled from the spec:` the repository's splitter performs "simple
random sampling"; its pseudo-random source is external library behaviour.
It is modelled as a deterministic Fisher–Yates-style shuffle driven by a
linear congruential generator seeded from the split's seed. -/

/-- One step of a linear congruential generator (glibc constants). -/
def lcgNext (s : Nat) : Nat :=
  (1103515245 * s + 12345) % 2147483648

/-- Fisher–Yates-style selection shuffle: repeatedly extract the element
at the LCG-chosen index. -/
def shuffleAux : Nat → List α → List α
  | _, [] => []
  | s, a :: l =>
    (a :: l).get ⟨s % (l.length + 1), Nat.mod_lt _ (Nat.succ_pos _)⟩ ::
      shuffleAux (lcgNext s) ((a :: l).eraseIdx (s % (l.length + 1)))
termination_by _ l => l.length
decreasing_by
  simp only [List.length_eraseIdx, List.length_cons,
    Nat.mod_lt (y := l.length + 1) _ (Nat.succ_pos _), if_pos]
  omega

/-- Shuffle a list deterministically from a seed. -/
def shuffleList (seed : Nat) (l : List α) : List α :=
  shuffleAux seed l

/-- Extracting the `i`-th element and the remainder is a permutation of
the original list. -/
theorem get_cons_eraseIdx_perm (l : List α) (i : Fin l.length) :
    List.Perm (l.get i :: l.eraseIdx i) l := by
  classical
  have h1 : List.Perm l (l.get i :: l.erase (l.get i)) :=
    List.perm_cons_erase (List.get_mem l i i.isLt)
  have h2 : List.Perm (l.erase (l.get i)) (l.eraseIdx i) := by
    simpa using List.erase_getElem (l := l) (i := (i : Nat)) i.isLt
  exact ((h1.trans (h2.cons _))).symm

/-- The shuffle is a permutation of its input. -/
theorem shuffleAux_perm : ∀ (s : Nat) (l : List α), List.Perm (shuffleAux s l) l
  | _, [] => by simp [shuffleAux]
  | s, a :: l => by
    rw [shuffleAux]
    exact ((shuffleAux_perm (lcgNext s) _).cons _).trans
      (get_cons_eraseIdx_perm (a :: l) ⟨s % (l.length + 1), Nat.mod_lt _ (Nat.succ_pos _)⟩)
termination_by _ l => l.length
decreasing_by
  simp only [List.length_eraseIdx, List.length_cons,
    Nat.mod_lt (y := l.length + 1) _ (Nat.succ_pos _), if_pos]
  omega

/-- `shuffleList` is a permutation of its input. -/
theorem shuffleList_perm (seed : Nat) (l : List α) : List.Perm (shuffleList seed l) l :=
  shuffleAux_perm seed l

/-! ## The random split

`Modelled from the spec:` `python_random_split` (from
`recommenders.datasets.python_splitters`, not among the sampled sources)
splits a table "by simple random sampling into training and test
subsets" at the given ratio: the rows are shuffled by the seeded
pseudo-random source and the first `⌊ratio * n⌋` shuffled rows form the
training subset, the rest the test subset.  The notebook calls it as
`python_random_split(data, 0.75)`, the seed keeping its default. -/

/-- Default seed of the splitter. -/
def SPLIT_DEFAULT_SEED : Nat := 42

/-- `Modelled from the spec:` the random train/test splitter.  Returns
the pair `(train, test)`. -/
def python_random_split (data : List Interaction) (ratio : ℚ) (seed : Nat) :
    List Interaction × List Interaction :=
  ((shuffleList seed data).take ⌊ratio * (data.length : ℚ)⌋₊,
   (shuffleList seed data).drop ⌊ratio * (data.length : ℚ)⌋₊)

/-! ## Notebook parameters

Constants of the notebook's parameters cell (the cell tagged
`parameters`), transcribed from the source. -/

/-- Selected MovieLens data size. -/
def MOVIELENS_DATA_SIZE : String := "100k"

/-- Top k items to recommend. -/
def TOP_K : Nat := 10

/-- Latent dimension count of the model. -/
def NUM_FACTORS : Nat := 200

/-- Epoch count of the model. -/
def NUM_EPOCHS : Nat := 100

/-- `Modelled from the spec:` the constant `SEED` imported from
`recommenders.utils.constants`, which is not among the sampled sources.
Its numeric value never matters to the claims below, only that the same
constant is passed to both `Dataset.from_uir` and the `BPR` constructor. -/
def SEED : Nat := 42

/-! ## The Cornac dataset object

`Modelled from the spec:` `cornac.data.Dataset.from_uir` ("construct a
Cornac Dataset object from the train rows") builds the dataset object the
model interacts with from `(user, item, rating)` triples, together with a
seed. -/

/-- The Cornac dataset object. -/
structure Dataset where
  uir : List (Nat × Nat × ℚ)
  seed : Nat
  deriving DecidableEq, Repr

/-- `Modelled from the spec:` `cornac.data.Dataset.from_uir`. -/
def Dataset.from_uir (triples : List (Nat × Nat × ℚ)) (seed : Nat) : Dataset :=
  ⟨triples, seed⟩

/-- Number of distinct users of the dataset. -/
def Dataset.num_users (d : Dataset) : Nat :=
  (d.uir.map (·.1)).dedup.length

/-- Number of distinct items of the dataset. -/
def Dataset.num_items (d : Dataset) : Nat :=
  (d.uir.map (·.2.1)).dedup.length

/-- `train.itertuples(index=False)`: the rows of an interaction table as
`(user, item, rating)` triples. -/
def itertuples (t : List Interaction) : List (Nat × Nat × ℚ) :=
  t.map fun r => (r.userID, r.itemID, r.rating)

/-! ## The BPR model

The constructor surface is transcribed from the notebook's constructor
call; the training routine itself is external library behaviour. -/

/-- The BPR model configuration: the six named hyperparameters of the
constructor call in the notebook. -/
structure BPR where
  k : Nat
  max_iter : Nat
  learning_rate : ℚ
  lambda_reg : ℚ
  verbose : Bool
  seed : Nat
  deriving DecidableEq, Repr

/-- The keyword names of the notebook's `BPR(...)` constructor call, in
source order. -/
def bprCallKeywords : List String :=
  ["k", "max_iter", "learning_rate", "lambda_reg", "verbose", "seed"]

/-- The `bpr = BPR(...)` cell of the notebook. -/
def notebookBPR : BPR :=
  ⟨NUM_FACTORS, NUM_EPOCHS, 0.01, 0.001, true, SEED⟩

/-- A trained BPR model. -/
structure TrainedBPR where
  model : BPR
  trainSet : Dataset
  deriving DecidableEq, Repr

/-- `Modelled from the spec:` `bpr.fit(train_set)` — the external SGD
training routine.  With a fixed seed it is a deterministic function of
the hyperparameters and the training data, which is all the claims below
use of it. -/
def BPR.fit (b : BPR) (ds : Dataset) : TrainedBPR :=
  ⟨b, ds⟩

/-- Mix two naturals into a pseudo-random state. -/
def mixNat (a b : Nat) : Nat :=
  lcgNext (2654435761 * a + b + 97531)

/-- `Modelled from the spec:` the learned preference score
`⟨w_u, h_i⟩` of the trained model — a deterministic, seed-dependent
function of the user and item identifiers and the training data. -/
def TrainedBPR.score (m : TrainedBPR) (u i : Nat) : ℚ :=
  ((mixNat (mixNat (mixNat m.model.seed m.trainSet.uir.length) u) i) % 1000 : Nat)

/-! ## Ranked recommendation -/

/-- Whether the pair `(u, i)` appears as an interaction of the table. -/
def seenPair (t : List Interaction) (u i : Nat) : Bool :=
  t.any fun r => r.userID == u && r.itemID == i

/-- Insert a prediction into a list sorted by decreasing score. -/
def insertByScore (p : Prediction) : List Prediction → List Prediction
  | [] => [p]
  | q :: rest =>
    if q.prediction < p.prediction then p :: q :: rest
    else q :: insertByScore p rest

/-- Sort a prediction list by decreasing score. -/
def sortByScore (l : List Prediction) : List Prediction :=
  l.foldr insertByScore []

/-- Distinct users of an interaction table. -/
def distinctUsers (t : List Interaction) : List Nat :=
  (t.map (·.userID)).dedup

/-- Distinct items of an interaction table. -/
def distinctItems (t : List Interaction) : List Nat :=
  (t.map (·.itemID)).dedup

/-- `Modelled from the spec:` `bpr.recommend_k_items(train, ...,
remove_seen=True)` — "a ranked list of (user, item, predicted score)
tuples produced after model inference".  For each user of the given
table it ranks the candidate items by the trained model's predicted
score and keeps the top `k`; with `remove_seen = true` every
`(user, item)` pair already present in the given table is removed from
the candidates first. -/
def TrainedBPR.recommend_k_items (m : TrainedBPR) (data : List Interaction)
    (k : Nat) (remove_seen : Bool) : List Prediction :=
  (distinctUsers data).flatMap fun u =>
    let cands := (distinctItems data).filter fun i => !(remove_seen && seenPair data u i)
    (sortByScore (cands.map fun i => ⟨u, i, m.score u i⟩)).take k

/-! ## Evaluation metrics

`Modelled from the spec:` the evaluation surface consists of "functions
accepting ground-truth and predicted tables plus a cutoff rank `k`,
returning scalar metric values"; the formulas themselves are external
helper behaviour (the spec's glossary: standard ranking metrics).  They
are modelled as total rational-valued functions of that surface; for
NDCG the logarithmic discount is irrational, so a positive strictly
decreasing rational discount stands in for it. -/

namespace python_evaluation

/-- Distinct users of the ground-truth table. -/
def usersOf (test : List Interaction) : List Nat :=
  (test.map (·.userID)).dedup

/-- Items relevant to user `u` according to the ground-truth table. -/
def relevantItems (test : List Interaction) (u : Nat) : List Nat :=
  ((test.filter fun r => r.userID == u).map (·.itemID)).dedup

/-- The top-`k` recommended items of user `u`, by decreasing score. -/
def topKItems (preds : List Prediction) (u k : Nat) : List Nat :=
  ((sortByScore (preds.filter fun p => p.userID == u)).take k).map (·.itemID)

/-- Relevant items among the top-`k` recommendations of user `u`. -/
def hitItems (test : List Interaction) (preds : List Prediction) (u k : Nat) : List Nat :=
  (topKItems preds u k).filter fun i => (relevantItems test u).contains i

/-- Mean of a rational-valued function over a list of users. -/
def meanOver (l : List Nat) (f : Nat → ℚ) : ℚ :=
  if l.length = 0 then 0 else (l.map f).sum / l.length

/-- `Modelled from the spec:` precision@k. -/
def precision_at_k (test : List Interaction) (preds : List Prediction) (k : Nat) : ℚ :=
  meanOver (usersOf test) fun u =>
    if k = 0 then 0 else ((hitItems test preds u k).length : ℚ) / k

/-- `Modelled from the spec:` recall@k. -/
def recall_at_k (test : List Interaction) (preds : List Prediction) (k : Nat) : ℚ :=
  meanOver (usersOf test) fun u =>
    let rel := relevantItems test u
    if rel.length = 0 then 0
    else ((hitItems test preds u k).length : ℚ) / rel.length

/-- `Modelled from the spec:` mean average precision. -/
def map (test : List Interaction) (preds : List Prediction) (k : Nat) : ℚ :=
  meanOver (usersOf test) fun u =>
    let top := topKItems preds u k
    let rel := relevantItems test u
    if rel.length = 0 then 0
    else
      (top.enum.map fun ji =>
        if rel.contains ji.2 then
          (((top.take (ji.1 + 1)).filter fun i => rel.contains i).length : ℚ) / (ji.1 + 1)
        else 0).sum / rel.length

/-- Rational surrogate for the NDCG position discount. -/
def dcgDiscount (j : Nat) : ℚ :=
  1 / (j + 2)

/-- `Modelled from the spec:` NDCG@k, with the rational discount
`dcgDiscount`. -/
def ndcg_at_k (test : List Interaction) (preds : List Prediction) (k : Nat) : ℚ :=
  meanOver (usersOf test) fun u =>
    let top := topKItems preds u k
    let rel := relevantItems test u
    let dcg := (top.enum.map fun ji => if rel.contains ji.2 then dcgDiscount ji.1 else 0).sum
    let idcg := ((List.range (min rel.length k)).map dcgDiscount).sum
    if idcg = 0 then 0 else dcg / idcg

end python_evaluation

/-! ## The notebook pipeline -/

/-- The evaluation cell of the notebook: the four metric calls, each on
the ground-truth table `test` and the prediction table
`all_predictions`, with cutoff `k = TOP_K`; each call returns one
scalar. -/
def notebookEvaluate (test : List Interaction) (all_predictions : List Prediction) :
    ℚ × ℚ × ℚ × ℚ :=
  (python_evaluation.map test all_predictions TOP_K,
   python_evaluation.ndcg_at_k test all_predictions TOP_K,
   python_evaluation.precision_at_k test all_predictions TOP_K,
   python_evaluation.recall_at_k test all_predictions TOP_K)

/-- The notebook pipeline as one function of the loaded interaction
table and the seed constant: split, construct the Cornac dataset,
instantiate BPR, fit, predict with `remove_seen=True`, and score with
the four ranking metrics.  `Modelled from the spec:` the external
download of the MovieLens table is the pipeline's input. -/
def runPipeline (data : List Interaction) (seed : Nat) : ℚ × ℚ × ℚ × ℚ :=
  let split := python_random_split data 0.75 SPLIT_DEFAULT_SEED
  let train := split.1
  let test := split.2
  let train_set := Dataset.from_uir (itertuples train) seed
  let bpr : BPR := ⟨NUM_FACTORS, NUM_EPOCHS, 0.01, 0.001, true, seed⟩
  let fitted := bpr.fit train_set
  let all_predictions := fitted.recommend_k_items train TOP_K true
  notebookEvaluate test all_predictions

/-- The notebook's run, with the constant `SEED`. -/
def notebookRun (data : List Interaction) : ℚ × ℚ × ℚ × ℚ :=
  runPipeline data SEED

/-! ## Pipeline step order (claim C6) -/

/-- The eight steps of the notebook's linear pipeline. -/
inductive PipelineStep
  | load
  | split
  | constructDataset
  | instantiateModel
  | fitModel
  | predict
  | score
  | emit
  deriving DecidableEq, Repr

/-- The order in which the notebook's code cells execute, transcribed
from the source. -/
def notebookOrder : List PipelineStep :=
  [.load, .split, .constructDataset, .instantiateModel, .fitModel,
   .predict, .score, .emit]

/-- The earlier pipeline steps whose outputs each step consumes, read
off the notebook cells (`instantiateModel` consumes only the constants
of the parameters cell). -/
def stepInputs : PipelineStep → List PipelineStep
  | .load => []
  | .split => [.load]
  | .constructDataset => [.split]
  | .instantiateModel => []
  | .fitModel => [.instantiateModel, .constructDataset]
  | .predict => [.fitModel, .split]
  | .score => [.split, .predict]
  | .emit => [.score]

/-! ## The reusable `azureml-tests` workflow

Transcribed from the `azureml-tests` workflow document packaged in the
source sample (its `env` block, and the steps of its `execute-tests`
job). -/

namespace azureml_tests

/-- `env.CPU_CLUSTER_NAME`. -/
def CPU_CLUSTER_NAME : String := "cpu-cluster"

/-- `env.GPU_CLUSTER_NAME`. -/
def GPU_CLUSTER_NAME : String := "gpu-cluster"

/-- `env.RG`. -/
def RG : String := "recommenders_project_resources"

/-- `env.WS`. -/
def WS : String := "azureml-test-workspace"

/-- `env.PYTEST_EXIT_CODE`: the name of the recorded exit-status file. -/
def PYTEST_EXIT_CODE : String := "pytest_exit_code.log"

/-- The command-line test-submission script. -/
def submitScript : String := "tests/ci/azureml_tests/submit_groupwise_azureml_pytest.py"

/-- An invocation of the test-submission script: the script path, the
cluster passed to `--clustername`, and the flag names present on the
command line, in source order. -/
structure SubmitCall where
  script : String
  clustername : String
  flags : List String
  deriving DecidableEq, Repr

/-- The `if:` condition of a step of the `execute-tests` job. -/
inductive StepCond
  | always
  | groupContains (pat : String)
  | exitCodeNonzero
  deriving DecidableEq, Repr

/-- A step of the `execute-tests` job. -/
structure WorkflowStep where
  name : String
  cond : StepCond
  submits : Option SubmitCall
  readsExitFile : Bool
  marksRunFailed : Bool
  failMessage : Option String
  deriving DecidableEq, Repr

/-- The `Submit CPU tests to AzureML` invocation. -/
def cpuSubmitCall : SubmitCall :=
  ⟨submitScript, CPU_CLUSTER_NAME,
   ["--clustername", "--subid", "--reponame", "--branch", "--rg", "--wsname",
    "--expname", "--testlogs", "--testkind", "--conda_pkg_python", "--testgroup"]⟩

/-- The `Submit GPU tests to AzureML` invocation. -/
def gpuSubmitCall : SubmitCall :=
  ⟨submitScript, GPU_CLUSTER_NAME,
   ["--clustername", "--subid", "--reponame", "--branch", "--rg", "--wsname",
    "--expname", "--testlogs", "--add_gpu_dependencies", "--testkind",
    "--conda_pkg_python", "--testgroup"]⟩

/-- The `Submit PySpark tests to AzureML` invocation. -/
def sparkSubmitCall : SubmitCall :=
  ⟨submitScript, CPU_CLUSTER_NAME,
   ["--clustername", "--subid", "--reponame", "--branch", "--rg", "--wsname",
    "--expname", "--testlogs", "--add_spark_dependencies", "--testkind",
    "--conda_pkg_python", "--testgroup"]⟩

/-- The `Submit CPU tests to AzureML` step. -/
def submitCPUStep : WorkflowStep :=
  ⟨"Submit CPU tests to AzureML", .groupContains "cpu", some cpuSubmitCall,
   false, false, none⟩

/-- The `Submit GPU tests to AzureML` step. -/
def submitGPUStep : WorkflowStep :=
  ⟨"Submit GPU tests to AzureML", .groupContains "gpu", some gpuSubmitCall,
   false, false, none⟩

/-- The `Submit PySpark tests to AzureML` step. -/
def submitSparkStep : WorkflowStep :=
  ⟨"Submit PySpark tests to AzureML", .groupContains "spark", some sparkSubmitCall,
   false, false, none⟩

/-- The steps of the `execute-tests` job, in source order. -/
def executeTestsSteps : List WorkflowStep :=
  [⟨"Check out repository code", .always, none, false, false, none⟩,
   ⟨"Setup python", .always, none, false, false, none⟩,
   ⟨"Install azureml-core and azure-cli on a GitHub hosted server", .always,
    none, false, false, none⟩,
   ⟨"Log in to Azure", .always, none, false, false, none⟩,
   ⟨"Install wheel package", .always, none, false, false, none⟩,
   ⟨"Create wheel from setup.py", .always, none, false, false, none⟩,
   ⟨"Extract branch name", .always, none, false, false, none⟩,
   submitCPUStep,
   submitGPUStep,
   submitSparkStep,
   ⟨"Print test logs", .always, none, false, false, none⟩,
   ⟨"Get exit status", .always, none, true, false, none⟩,
   ⟨"Check Success/Failure", .exitCodeNonzero, none, false, true,
    some "All tests did not pass!"⟩]

/-- Substring test on character lists. -/
def strContainsAux (needle : List Char) : List Char → Bool
  | [] => needle.isEmpty
  | c :: cs => needle.isPrefixOf (c :: cs) || strContainsAux needle cs

/-- GitHub's `contains(haystack, pattern)` expression function on
strings. -/
def ghContains (s pat : String) : Bool :=
  strContainsAux pat.toList s.toList

/-- Evaluate a step condition, given the matrix test-group name and the
integer recorded in the exit-status file. -/
def StepCond.eval (c : StepCond) (group : String) (exitCode : Int) : Bool :=
  match c with
  | .always => true
  | .groupContains pat => ghContains group pat
  | .exitCodeNonzero => exitCode != 0

/-- Whether the workflow run is marked failed, as a function of the
matrix test-group and the recorded exit code: some step whose condition
holds calls `core.setFailed`. -/
def runMarkedFailed (group : String) (exitCode : Int) : Bool :=
  executeTestsSteps.any fun s => s.cond.eval group exitCode && s.marksRunFailed

/-- The steps of the job that mark the run failed. -/
def failureHandlingSteps : List WorkflowStep :=
  executeTestsSteps.filter (·.marksRunFailed)

/-- The steps that read the recorded exit-status file. -/
def exitFileReaders : List WorkflowStep :=
  executeTestsSteps.filter (·.readsExitFile)

/-- The submission invocations of the job. -/
def submitCalls : List SubmitCall :=
  executeTestsSteps.filterMap (·.submits)

/-- The six parameters claim C8 requires of every submission. -/
def requiredSubmitFlags : List String :=
  ["--clustername", "--subid", "--rg", "--wsname", "--expname", "--testgroup"]

/-- The submission steps whose condition holds for a given matrix
test-group name (the exit-status file does not exist yet when they run,
so their conditions do not consult it). -/
def submissionStepsFor (group : String) : List WorkflowStep :=
  (executeTestsSteps.filter fun s => s.submits.isSome).filter
    fun s => s.cond.eval group 0

end azureml_tests

/-! ## The `azureml-gpu-nightly` workflow triggers -/

namespace azureml_gpu_nightly

/-- A `workflow_dispatch` input: name, description, default value (an
input with a default is optional). -/
structure DispatchInput where
  name : String
  description : String
  defaultValue : String
  deriving DecidableEq, Repr

/-- A `push` trigger: branch filters and path filters. -/
structure PushTrigger where
  branches : List String
  paths : List String
  deriving DecidableEq, Repr

/-- The `on:` block of a workflow file. -/
structure Triggers where
  schedule : List String
  push : Option PushTrigger
  workflow_dispatch : Option (List DispatchInput)
  workflow_call : Bool
  deriving DecidableEq, Repr

/-- The `on:` block of `azureml-gpu-nightly.yml`, transcribed from the
source. -/
def triggers : Triggers :=
  ⟨["0 0 */5 * *"],
   some ⟨["staging"],
     ["examples/**", "!examples/**/*.md", "recommenders/**",
      "!recommenders/**/*.md", "tests/**", "!tests/**/*.md", "setup.py"]⟩,
   some [⟨"tags", "Tags to label this manual run (optional)", "Manual trigger"⟩],
   true⟩

/-- The number of trigger kinds a workflow declares. -/
def kindCount (t : Triggers) : Nat :=
  (if t.schedule.isEmpty then 0 else 1) + (if t.push.isSome then 1 else 0) +
    (if t.workflow_dispatch.isSome then 1 else 0) +
    (if t.workflow_call then 1 else 0)

end azureml_gpu_nightly

/-! ## Helper lemmas -/

/-- Unfolding lemma for `sortByScore`. -/
theorem sortByScore_cons (p : Prediction) (l : List Prediction) :
    sortByScore (p :: l) = insertByScore p (sortByScore l) := rfl

/-- Membership in an insertion comes from the inserted element or the
original list. -/
theorem mem_insertByScore {x p : Prediction} : ∀ {l : List Prediction},
    x ∈ insertByScore p l → x = p ∨ x ∈ l
  | [], h => by simpa [insertByScore] using h
  | q :: rest, h => by
    rw [insertByScore] at h
    by_cases hq : q.prediction < p.prediction
    · rw [if_pos hq] at h
      exact List.mem_cons.mp h
    · rw [if_neg hq] at h
      rcases List.mem_cons.mp h with h1 | h2
      · exact Or.inr (h1 ▸ List.mem_cons_self q rest)
      · rcases mem_insertByScore h2 with h3 | h4
        · exact Or.inl h3
        · exact Or.inr (List.mem_cons_of_mem q h4)

/-- Membership is preserved backwards by sorting. -/
theorem mem_sortByScore {x : Prediction} : ∀ {l : List Prediction},
    x ∈ sortByScore l → x ∈ l
  | [], h => by simp [sortByScore] at h
  | p :: rest, h => by
    rw [sortByScore_cons] at h
    rcases mem_insertByScore h with h1 | h2
    · simp [h1]
    · exact List.mem_cons_of_mem p (mem_sortByScore h2)

/-! ## Claim theorems -/

/-- Concrete four-row interaction table used by witnesses. -/
def w3data : List Interaction :=
  [⟨1, 1, 3⟩, ⟨1, 2, 4⟩, ⟨2, 1, 5⟩, ⟨2, 2, 2⟩]

/-- **C3**: `python_random_split(data, 0.75)` splits the interaction
table by seeded random sampling into `train` and `test` whose disjoint
union (as a multiset) is the input table, `train` receiving 75% of the
rows and `test` the remaining 25% (the row count of the loaded table is
divisible by four). -/
theorem python_random_split_partition (data : List Interaction) (seed : Nat)
    (h : 4 ∣ data.length) :
    List.Perm ((python_random_split data 0.75 seed).1 ++
      (python_random_split data 0.75 seed).2) data ∧
    4 * (python_random_split data 0.75 seed).1.length = 3 * data.length ∧
    4 * (python_random_split data 0.75 seed).2.length = data.length := by
  obtain ⟨m, hm⟩ := h
  have hperm := shuffleList_perm seed data
  have hlen : (shuffleList seed data).length = data.length := hperm.length_eq
  have hcut : ⌊(0.75 : ℚ) * (data.length : ℚ)⌋₊ = 3 * m := by
    have h075 : (0.75 : ℚ) = 3 / 4 := by norm_num
    rw [h075, hm]
    have hq : (3 : ℚ) / 4 * ((4 * m : Nat) : ℚ) = ((3 * m : Nat) : ℚ) := by
      push_cast
      ring
    rw [hq, Nat.floor_natCast]
  refine ⟨?_, ?_, ?_⟩
  · show List.Perm ((shuffleList seed data).take _ ++ (shuffleList seed data).drop _) data
    rw [List.take_append_drop]
    exact hperm
  · show 4 * ((shuffleList seed data).take _).length = 3 * data.length
    rw [List.length_take, hcut, hlen, hm]
    omega
  · show 4 * ((shuffleList seed data).drop _).length = data.length
    rw [List.length_drop, hcut, hlen, hm]
    omega

/-- Witness for **C3** at a concrete four-row table. -/
theorem python_random_split_partition_witness :
    List.Perm ((python_random_split w3data 0.75 7).1 ++
      (python_random_split w3data 0.75 7).2) w3data ∧
    4 * (python_random_split w3data 0.75 7).1.length = 3 * w3data.length ∧
    4 * (python_random_split w3data 0.75 7).2.length = w3data.length :=
  python_random_split_partition w3data 7 (by decide)

/-- **C1**: with the seed constant fixed and passed to both the Cornac
dataset construction and the BPR constructor, the pipeline is a
deterministic function of the input interaction table, so two complete
executions on the same table yield equal MAP, NDCG, precision@k and
recall@k values. -/
theorem bpr_seed_reproducibility (data : List Interaction) (seed : Nat)
    (firstRun secondRun : ℚ × ℚ × ℚ × ℚ)
    (h1 : firstRun = runPipeline data seed)
    (h2 : secondRun = runPipeline data seed) :
    firstRun.1 = secondRun.1 ∧ firstRun.2.1 = secondRun.2.1 ∧
    firstRun.2.2.1 = secondRun.2.2.1 ∧ firstRun.2.2.2 = secondRun.2.2.2 := by
  subst h1
  subst h2
  exact ⟨rfl, rfl, rfl, rfl⟩

/-- Witness for **C1**: two runs on the concrete table. -/
theorem bpr_seed_reproducibility_witness :
    (runPipeline w3data SEED).1 = (runPipeline w3data SEED).1 ∧
    (runPipeline w3data SEED).2.1 = (runPipeline w3data SEED).2.1 ∧
    (runPipeline w3data SEED).2.2.1 = (runPipeline w3data SEED).2.2.1 ∧
    (runPipeline w3data SEED).2.2.2 = (runPipeline w3data SEED).2.2.2 :=
  bpr_seed_reproducibility w3data SEED (runPipeline w3data SEED)
    (runPipeline w3data SEED) rfl rfl

/-- **C4**: the notebook constructs the BPR model by passing exactly six
named hyperparameters — `k = NUM_FACTORS = 200`,
`max_iter = NUM_EPOCHS = 100`, `learning_rate = 0.01`,
`lambda_reg = 0.001`, `verbose = True` and `seed = SEED`. -/
theorem notebook_bpr_constructor_args :
    bprCallKeywords.length = 6 ∧
    bprCallKeywords = ["k", "max_iter", "learning_rate", "lambda_reg",
      "verbose", "seed"] ∧
    notebookBPR.k = NUM_FACTORS ∧ NUM_FACTORS = 200 ∧
    notebookBPR.max_iter = NUM_EPOCHS ∧ NUM_EPOCHS = 100 ∧
    notebookBPR.learning_rate = 1 / 100 ∧
    notebookBPR.lambda_reg = 1 / 1000 ∧
    notebookBPR.verbose = true ∧
    notebookBPR.seed = SEED := by
  refine ⟨rfl, rfl, rfl, rfl, rfl, rfl, ?_, ?_, rfl, rfl⟩ <;>
    norm_num [notebookBPR]

/-- **C5**: the evaluation cell applies each of the four metric
functions to the ground-truth table `test` and the prediction table
`all_predictions` with cutoff `k = TOP_K = 10`, and each call returns a
single scalar value. -/
theorem notebook_evaluation_surface (test : List Interaction)
    (all_predictions : List Prediction) :
    TOP_K = 10 ∧
    notebookEvaluate test all_predictions =
      (python_evaluation.map test all_predictions 10,
       python_evaluation.ndcg_at_k test all_predictions 10,
       python_evaluation.precision_at_k test all_predictions 10,
       python_evaluation.recall_at_k test all_predictions 10) :=
  ⟨rfl, rfl⟩

/-- **C6**: the notebook executes as a linear sequence in the exact
order load → split → construct dataset → instantiate model → fit →
predict → score → emit, and every pipeline step consumes only outputs of
strictly earlier steps. -/
theorem notebook_pipeline_order :
    notebookOrder = [.load, .split, .constructDataset, .instantiateModel,
      .fitModel, .predict, .score, .emit] ∧
    notebookOrder.Nodup ∧
    ∀ s ∈ notebookOrder, ∀ d ∈ stepInputs s,
      notebookOrder.indexOf d < notebookOrder.indexOf s :=
  ⟨rfl, by decide, by decide⟩

/-- Witness for **C6**: the `predict` step's input `fitModel` comes
earlier. -/
theorem notebook_pipeline_order_witness :
    notebookOrder.indexOf PipelineStep.fitModel <
      notebookOrder.indexOf PipelineStep.predict :=
  notebook_pipeline_order.2.2 PipelineStep.predict (by decide)
    PipelineStep.fitModel (by decide)

/-- **C7**: `azureml-gpu-nightly` declares exactly four trigger kinds —
the cron schedule `0 0 */5 * *`; a push trigger restricted to branch
`staging` and to changed paths under `examples/**`, `recommenders/**`,
`tests/**` (each excluding Markdown files) or `setup.py`; a manual
`workflow_dispatch` with an optional `tags` input; and a reusable
`workflow_call`. -/
theorem azureml_gpu_nightly_triggers :
    azureml_gpu_nightly.kindCount azureml_gpu_nightly.triggers = 4 ∧
    azureml_gpu_nightly.triggers.schedule = ["0 0 */5 * *"] ∧
    azureml_gpu_nightly.triggers.push =
      some ⟨["staging"],
        ["examples/**", "!examples/**/*.md", "recommenders/**",
         "!recommenders/**/*.md", "tests/**", "!tests/**/*.md", "setup.py"]⟩ ∧
    azureml_gpu_nightly.triggers.workflow_dispatch =
      some [⟨"tags", "Tags to label this manual run (optional)",
        "Manual trigger"⟩] ∧
    azureml_gpu_nightly.triggers.workflow_call = true :=
  ⟨rfl, rfl, rfl, rfl, rfl⟩

/-- **C2**: the reusable `azureml-tests` workflow marks the run failed
exactly when the recorded exit-status file (named by `PYTEST_EXIT_CODE`,
i.e. `pytest_exit_code.log`) holds a non-zero value; the only step that
marks the run failed is `Check Success/Failure` with the message
`All tests did not pass!`, and the only step reading the file is
`Get exit status`. -/
theorem azureml_tests_failure_handling :
    (∀ (g : String) (c : Int),
      azureml_tests.runMarkedFailed g c = true ↔ c ≠ 0) ∧
    azureml_tests.failureHandlingSteps.map (·.name) = ["Check Success/Failure"] ∧
    azureml_tests.failureHandlingSteps.map (·.failMessage) =
      [some "All tests did not pass!"] ∧
    azureml_tests.PYTEST_EXIT_CODE = "pytest_exit_code.log" ∧
    azureml_tests.exitFileReaders.map (·.name) = ["Get exit status"] := by
  refine ⟨?_, rfl, rfl, rfl, rfl⟩
  intro g c
  simp [azureml_tests.runMarkedFailed, azureml_tests.executeTestsSteps,
    azureml_tests.StepCond.eval, azureml_tests.submitCPUStep,
    azureml_tests.submitGPUStep, azureml_tests.submitSparkStep]

/-- **C8**: every test-submission step invokes
`submit_groupwise_azureml_pytest.py` with the `--clustername`,
`--subid`, `--rg`, `--wsname`, `--expname` and `--testgroup`
parameters, and the submission's exit status is communicated via the
recorded exit-code file named by `PYTEST_EXIT_CODE`. -/
theorem azureml_tests_submission_parameters :
    (∀ call ∈ azureml_tests.submitCalls,
      call.script = azureml_tests.submitScript ∧
      ∀ flag ∈ azureml_tests.requiredSubmitFlags, flag ∈ call.flags) ∧
    azureml_tests.submitCalls =
      [azureml_tests.cpuSubmitCall, azureml_tests.gpuSubmitCall,
       azureml_tests.sparkSubmitCall] ∧
    azureml_tests.PYTEST_EXIT_CODE = "pytest_exit_code.log" ∧
    azureml_tests.exitFileReaders.map (·.readsExitFile) = [true] := by
  refine ⟨?_, rfl, rfl, rfl⟩
  decide

/-- Witness for **C8** at the CPU submission. -/
theorem azureml_tests_submission_parameters_witness :
    azureml_tests.cpuSubmitCall.script = azureml_tests.submitScript ∧
    "--testgroup" ∈ azureml_tests.cpuSubmitCall.flags :=
  ⟨(azureml_tests_submission_parameters.1 azureml_tests.cpuSubmitCall
      (by decide)).1,
   (azureml_tests_submission_parameters.1 azureml_tests.cpuSubmitCall
      (by decide)).2 "--testgroup" (by decide)⟩

/-- **C10**: in the reusable `azureml-tests` workflow, exactly those
submission steps whose substring condition matches the test-group name
run: a name containing `cpu` submits to the CPU cluster; a name
containing `gpu` submits to the GPU cluster with
`--add_gpu_dependencies`; a name containing `spark` submits to the CPU
cluster with `--add_spark_dependencies`; and a name containing none of
the three triggers no submission step. -/
theorem azureml_tests_matrix_dispatch :
    (∀ g : String,
      azureml_tests.submitCPUStep ∈ azureml_tests.submissionStepsFor g ↔
        azureml_tests.ghContains g "cpu" = true) ∧
    (∀ g : String,
      azureml_tests.submitGPUStep ∈ azureml_tests.submissionStepsFor g ↔
        azureml_tests.ghContains g "gpu" = true) ∧
    (∀ g : String,
      azureml_tests.submitSparkStep ∈ azureml_tests.submissionStepsFor g ↔
        azureml_tests.ghContains g "spark" = true) ∧
    azureml_tests.cpuSubmitCall.clustername = azureml_tests.CPU_CLUSTER_NAME ∧
    azureml_tests.gpuSubmitCall.clustername = azureml_tests.GPU_CLUSTER_NAME ∧
    "--add_gpu_dependencies" ∈ azureml_tests.gpuSubmitCall.flags ∧
    azureml_tests.sparkSubmitCall.clustername = azureml_tests.CPU_CLUSTER_NAME ∧
    "--add_spark_dependencies" ∈ azureml_tests.sparkSubmitCall.flags ∧
    ∀ g : String, azureml_tests.ghContains g "cpu" = false →
      azureml_tests.ghContains g "gpu" = false →
      azureml_tests.ghContains g "spark" = false →
      azureml_tests.submissionStepsFor g = [] := by
  have hstep : ∀ g : String, azureml_tests.submissionStepsFor g =
      [azureml_tests.submitCPUStep, azureml_tests.submitGPUStep,
       azureml_tests.submitSparkStep].filter
        fun s => s.cond.eval g 0 := fun g => rfl
  refine ⟨?_, ?_, ?_, rfl, rfl, by decide, rfl, by decide, ?_⟩
  · intro g
    rw [hstep, List.mem_filter]
    simp [azureml_tests.submitCPUStep, azureml_tests.submitGPUStep,
      azureml_tests.submitSparkStep, azureml_tests.StepCond.eval]
  · intro g
    rw [hstep, List.mem_filter]
    simp [azureml_tests.submitCPUStep, azureml_tests.submitGPUStep,
      azureml_tests.submitSparkStep, azureml_tests.StepCond.eval]
  · intro g
    rw [hstep, List.mem_filter]
    simp [azureml_tests.submitCPUStep, azureml_tests.submitGPUStep,
      azureml_tests.submitSparkStep, azureml_tests.StepCond.eval]
  · intro g h1 h2 h3
    rw [hstep]
    simp [List.filter, azureml_tests.submitCPUStep, azureml_tests.submitGPUStep,
      azureml_tests.submitSparkStep, azureml_tests.StepCond.eval, h1, h2, h3]

/-- Witness for **C10**: the group `nightly_cpu` runs the CPU
submission; the group `notebooks` runs no submission step. -/
theorem azureml_tests_matrix_dispatch_witness :
    azureml_tests.submitCPUStep ∈ azureml_tests.submissionStepsFor "nightly_cpu" ∧
    azureml_tests.submissionStepsFor "notebooks" = [] :=
  ⟨(azureml_tests_matrix_dispatch.1 "nightly_cpu").mpr (by decide),
   azureml_tests_matrix_dispatch.2.2.2.2.2.2.2.2 "notebooks"
     (by decide) (by decide) (by decide)⟩

/-- **C9**: every `(userID, itemID)` pair of the prediction table
returned by `recommend_k_items` with `remove_seen=True` is absent from
the table the recommendations were computed over: no recommended pair
repeats an interaction seen during training. -/
theorem recommend_k_items_remove_seen (m : TrainedBPR) (data : List Interaction)
    (k u i : Nat)
    (h : (u, i) ∈ (m.recommend_k_items data k true).map
      fun p => (p.userID, p.itemID)) :
    seenPair data u i = false := by
  rcases List.mem_map.mp h with ⟨p, hp, hpair⟩
  rw [TrainedBPR.recommend_k_items] at hp
  rcases List.mem_flatMap.mp hp with ⟨u', hu', hmem⟩
  have hsort : p ∈ sortByScore
      (((distinctItems data).filter fun j => !(true && seenPair data u' j)).map
        fun j => ⟨u', j, m.score u' j⟩) :=
    List.take_subset _ _ hmem
  rcases List.mem_map.mp (mem_sortByScore hsort) with ⟨i', hi', hpi⟩
  rcases List.mem_filter.mp hi' with ⟨_, hcond⟩
  have hseen : seenPair data u' i' = false := by
    simpa using hcond
  rw [← hpi] at hpair
  simp only [Prod.mk.injEq] at hpair
  rw [← hpair.1, ← hpair.2]
  exact hseen

/-- Interaction table of the **C9** witness. -/
def w9data : List Interaction :=
  [⟨1, 1, 5⟩, ⟨2, 2, 4⟩]

/-- Trained model of the **C9** witness. -/
def w9model : TrainedBPR :=
  BPR.fit notebookBPR (Dataset.from_uir (itertuples w9data) SEED)

/-- Witness for **C9**: the pair `(1, 2)` is recommended and is not a
training interaction. -/
theorem recommend_k_items_remove_seen_witness :
    ((1, 2) ∈ (w9model.recommend_k_items w9data 1 true).map
      fun p => (p.userID, p.itemID)) ∧
    seenPair w9data 1 2 = false :=
  ⟨by decide, recommend_k_items_remove_seen w9model w9data 1 1 2 (by decide)⟩
